import Mathlib

/-!
Shallow embedding of `src/simple_button.py` (micropython-simple-button).

The module defines a single class `SimpleButton` that debounces a button
wired to a GPIO pin.  We embed:

* the MicroPython clock primitives `ticks_ms` / `ticks_diff` (wraparound-safe
  signed difference modulo `TICKS_PERIOD`);
* the instance state as a structure (`_state` is two valued in the source:
  pin levels are the ints 0/1 and the polarity inversion produces a bool, so
  we encode levels and the logical state as `Bool`, with `false` = 0 =
  Pressed and `true` = 1 = Released, matching `is_pressed`'s test
  `self._state == 0`);
* the constructor `__init__` as a fallible function (`Except`), taking the
  initial raw pin read as an explicit input (the GPIO pin itself is an
  external collaborator; callbacks are modelled by their presence, since the
  handler only tests them for truthiness and calls them);
* the interrupt handler `_irq_handler` as a function from the current state,
  the tick count `now` read at entry (line 85) and the raw level returned by
  the single `self._pin.value()` call at line 94 — the handler reads the pin
  only after the debounce check has passed — to the new state plus the
  callback it invokes (at most one per invocation, by the source's structure);
* `is_pressed`, `is_released`, `deinit`, and interrupt delivery
  (`deliver` runs the handler only while the irq is armed, as armed by
  `__init__` line 77 and disarmed by `deinit` line 132).
-/

/-- MicroPython tick counters wrap modulo `TICKS_PERIOD` (2^30 on the
standard ports). -/
def TICKS_PERIOD : Int := 2 ^ 30

/-- `utime.ticks_diff(a, b)`: wraparound-safe signed difference from `b` to
`a`, with result in `[-TICKS_PERIOD/2, TICKS_PERIOD/2)`. -/
def ticks_diff (a b : Nat) : Int :=
  ((a : Int) - (b : Int) + TICKS_PERIOD / 2) % TICKS_PERIOD - TICKS_PERIOD / 2

/-- Platform constant `machine.Pin.PULL_UP`.  The numeric value is
port-specific; only its distinctness from `PULL_DOWN` matters here. -/
def PULL_UP : Int := 1

/-- Platform constant `machine.Pin.PULL_DOWN`. -/
def PULL_DOWN : Int := 2

/-- The callback a handler invocation fires: `_press_callback` or
`_release_callback` (lines 109-114). -/
inductive CbEvent where
  | press
  | release
deriving DecidableEq

/-- Instance state of `SimpleButton`.  Callbacks are recorded by presence
(`None` versus a callable, which is what `if self._press_callback:` tests);
`irq_armed` records whether the pin irq handler is installed. -/
structure SimpleButton where
  press_callback : Bool
  release_callback : Bool
  debounce_ms : Int
  last_time : Nat
  active_low : Bool
  state : Bool
  irq_armed : Bool
deriving DecidableEq

/-- The polarity mapping used at lines 69-74 of `__init__` and lines 96-99 of
`_irq_handler`: with `active_low`, logical state equals the physical level;
otherwise it is its negation (`false` = Pressed, `true` = Released). -/
def logical_of (active_low physical : Bool) : Bool :=
  if active_low then physical else !physical

/-- The pull-argument validation of `__init__` line 52:
`pull is not None and pull not in (Pin.PULL_UP, Pin.PULL_DOWN)`. -/
def invalid_pull (pull : Option Int) : Bool :=
  match pull with
  | none => false
  | some p => p != PULL_UP && p != PULL_DOWN

namespace SimpleButton

/-- `SimpleButton.__init__` (lines 22-80).  `initial_physical_state` is the
raw level returned by the `self._pin.value()` read at line 68.  The pin
number is only forwarded to the GPIO collaborator and is not modelled.
Python's `isinstance(debounce_ms, int)` check is rendered by the `Int`
type of `debounce_ms`. -/
def init (press_callback release_callback : Bool) (debounce_ms : Int)
    (pull : Option Int) (active_low : Bool) (initial_physical_state : Bool) :
    Except String SimpleButton :=
  if invalid_pull pull then
    Except.error "pull must be Pin.PULL_UP, Pin.PULL_DOWN or None"
  else if debounce_ms < 0 then
    Except.error "debounce_ms must be a non-negative int"
  else
    Except.ok
      { press_callback := press_callback
        release_callback := release_callback
        debounce_ms := debounce_ms
        last_time := 0
        active_low := active_low
        state := logical_of active_low initial_physical_state
        irq_armed := true }

/-- `SimpleButton._irq_handler` (lines 83-114).  `now` is the `ticks_ms()`
read at line 85; `physical_state` is the value of the single
`self._pin.value()` call at line 94, performed only after the debounce
check has passed.  The second component is the callback the handler calls
(none on the two discard paths and when no callback is registered). -/
def irq_handler (b : SimpleButton) (now : Nat) (physical_state : Bool) :
    SimpleButton × Option CbEvent :=
  if ticks_diff now b.last_time < b.debounce_ms then
    (b, none)
  else
    if logical_of b.active_low physical_state ≠ b.state then
      ({ b with last_time := now, state := logical_of b.active_low physical_state },
        if logical_of b.active_low physical_state = false then
          (if b.press_callback then some CbEvent.press else none)
        else
          (if b.release_callback then some CbEvent.release else none))
    else
      (b, none)

/-- `SimpleButton.is_pressed` (line 121): `self._state == 0`. -/
def is_pressed (b : SimpleButton) : Bool :=
  b.state == false

/-- `SimpleButton.is_released` (line 128): `self._state == 1`. -/
def is_released (b : SimpleButton) : Bool :=
  b.state == true

/-- `SimpleButton.deinit` (lines 130-132): `self._pin.irq(handler=None)`
disarms interrupt delivery; nothing else changes. -/
def deinit (b : SimpleButton) : SimpleButton :=
  { b with irq_armed := false }

/-- Platform interrupt delivery: an edge invokes `_irq_handler` only while
the handler is installed on the pin. -/
def deliver (b : SimpleButton) (now : Nat) (physical_state : Bool) :
    SimpleButton × Option CbEvent :=
  if b.irq_armed then irq_handler b now physical_state else (b, none)

/-- Folds a sequence of handler invocations, each given by its `ticks_ms`
value and the level the handler re-samples; records every callback the
handler fires, paired with the invocation time, in invocation order. -/
def run (b : SimpleButton) : List (Nat × Bool) → SimpleButton × List (Nat × CbEvent)
  | [] => (b, [])
  | (t, lvl) :: rest =>
    ((run (irq_handler b t lvl).1 rest).1,
      (match (irq_handler b t lvl).2 with
        | some e => [(t, e)]
        | none => []) ++ (run (irq_handler b t lvl).1 rest).2)

/-- Folds a sequence of handler invocations and records the times of the
accepted transitions (an invocation is accepted exactly when it flips
`state`, which is also exactly when it writes `last_time`), in invocation
order: the resulting list is the successive values taken by `last_time`. -/
def run_accepted (b : SimpleButton) : List (Nat × Bool) → SimpleButton × List Nat
  | [] => (b, [])
  | (t, lvl) :: rest =>
    ((run_accepted (irq_handler b t lvl).1 rest).1,
      (if (irq_handler b t lvl).1.state ≠ b.state then [t] else [])
        ++ (run_accepted (irq_handler b t lvl).1 rest).2)

end SimpleButton

open SimpleButton

/-- A concrete constructed instance: both callbacks registered,
`debounce_ms = 50`, `active_low = true`, initial raw level high. -/
def sampleButton : SimpleButton :=
  { press_callback := true
    release_callback := true
    debounce_ms := 50
    last_time := 0
    active_low := true
    state := true
    irq_armed := true }

example : init true true 50 (some PULL_UP) true true = Except.ok sampleButton := rfl
example : ticks_diff 0 0 = 0 := by decide
example : ticks_diff 60 0 = 60 := by decide
example : irq_handler sampleButton 0 false = (sampleButton, none) := rfl
example : (irq_handler sampleButton 60 false).2 = some CbEvent.press := rfl

/-- Bounce-rejection branch (lines 89-91): within the debounce window the
handler returns without touching anything and without a callback. -/
lemma irq_handler_reject (b : SimpleButton) (now : Nat) (lvl : Bool)
    (h : ticks_diff now b.last_time < b.debounce_ms) :
    irq_handler b now lvl = (b, none) := by
  simp [irq_handler, h]

/-- Glitch-rejection branch (line 101 falls through): past the debounce
window, a re-sampled level mapping to the current state changes nothing. -/
lemma irq_handler_glitch (b : SimpleButton) (now : Nat) (lvl : Bool)
    (h1 : ¬ ticks_diff now b.last_time < b.debounce_ms)
    (h2 : logical_of b.active_low lvl = b.state) :
    irq_handler b now lvl = (b, none) := by
  simp [irq_handler, h1, h2]

/-- Confirmed-transition branch (lines 101-114): past the debounce window,
a differing candidate updates `last_time` and `state` and fires the
callback matching the new state, when registered. -/
lemma irq_handler_confirm (b : SimpleButton) (now : Nat) (lvl : Bool)
    (h1 : ¬ ticks_diff now b.last_time < b.debounce_ms)
    (h2 : logical_of b.active_low lvl ≠ b.state) :
    irq_handler b now lvl =
      ({ b with last_time := now, state := logical_of b.active_low lvl },
        if logical_of b.active_low lvl = false then
          (if b.press_callback then some CbEvent.press else none)
        else
          (if b.release_callback then some CbEvent.release else none)) := by
  simp [irq_handler, h1, h2]

/-- An invocation flips `state` exactly when it passes both guards. -/
lemma irq_handler_accept_iff (b : SimpleButton) (now : Nat) (lvl : Bool) :
    (irq_handler b now lvl).1.state ≠ b.state ↔
      (¬ ticks_diff now b.last_time < b.debounce_ms ∧
        logical_of b.active_low lvl ≠ b.state) := by
  by_cases h1 : ticks_diff now b.last_time < b.debounce_ms
  · simp [irq_handler_reject b now lvl h1, h1]
  · by_cases h2 : logical_of b.active_low lvl = b.state
    · simp [irq_handler_glitch b now lvl h1 h2, h1, h2]
    · simp [irq_handler_confirm b now lvl h1 h2, h1, h2]

/-- An invocation that does not flip `state` changes nothing and fires no
callback. -/
lemma irq_handler_not_accept (b : SimpleButton) (now : Nat) (lvl : Bool)
    (h : (irq_handler b now lvl).1.state = b.state) :
    irq_handler b now lvl = (b, none) := by
  by_cases h1 : ticks_diff now b.last_time < b.debounce_ms
  · exact irq_handler_reject b now lvl h1
  · by_cases h2 : logical_of b.active_low lvl = b.state
    · exact irq_handler_glitch b now lvl h1 h2
    · exact absurd h ((irq_handler_accept_iff b now lvl).mpr ⟨h1, h2⟩)

/-- An accepted invocation passed the debounce check, stamped `last_time`
with `now`, and preserved the configuration fields. -/
lemma irq_handler_accept_fields (b : SimpleButton) (now : Nat) (lvl : Bool)
    (h : (irq_handler b now lvl).1.state ≠ b.state) :
    ¬ ticks_diff now b.last_time < b.debounce_ms ∧
      (irq_handler b now lvl).1.last_time = now ∧
      (irq_handler b now lvl).1.debounce_ms = b.debounce_ms := by
  obtain ⟨h1, h2⟩ := (irq_handler_accept_iff b now lvl).mp h
  simp [irq_handler_confirm b now lvl h1 h2, h1]

/-- A callback fires only on an accepted invocation. -/
lemma irq_handler_cb_accept (b : SimpleButton) (now : Nat) (lvl : Bool)
    (e : CbEvent) (h : (irq_handler b now lvl).2 = some e) :
    (irq_handler b now lvl).1.state ≠ b.state := by
  by_contra hne
  rw [irq_handler_not_accept b now lvl hne] at h
  exact Option.noConfusion h

/-- The accepted-transition times are a subsequence of the invocation
times. -/
lemma run_accepted_sublist (evs : List (Nat × Bool)) :
    ∀ b : SimpleButton, ((run_accepted b evs).2).Sublist (evs.map Prod.fst) := by
  induction evs with
  | nil => intro b; simp [run_accepted]
  | cons hd rest ih =>
    intro b
    obtain ⟨t, lvl⟩ := hd
    by_cases hacc : (irq_handler b t lvl).1.state ≠ b.state
    · simp only [run_accepted, if_pos hacc, List.map_cons, List.cons_append,
        List.nil_append]
      exact List.Sublist.cons₂ t (ih _)
    · simp only [run_accepted, if_neg hacc, List.map_cons, List.nil_append]
      exact List.Sublist.cons t (ih _)

/-- The times at which callbacks fire are a subsequence of the accepted
transition times: callbacks fire in acceptance order. -/
lemma run_map_fst_sublist (evs : List (Nat × Bool)) :
    ∀ b : SimpleButton,
      ((run b evs).2.map Prod.fst).Sublist ((run_accepted b evs).2) := by
  induction evs with
  | nil => intro b; simp [run, run_accepted]
  | cons hd rest ih =>
    intro b
    obtain ⟨t, lvl⟩ := hd
    cases hcb : (irq_handler b t lvl).2 with
    | some e =>
      have hacc := irq_handler_cb_accept b t lvl e hcb
      simp only [run, run_accepted, hcb, if_pos hacc, List.cons_append,
        List.nil_append, List.map_cons]
      exact List.Sublist.cons₂ t (ih _)
    | none =>
      by_cases hacc : (irq_handler b t lvl).1.state ≠ b.state
      · simp only [run, run_accepted, hcb, if_pos hacc, List.cons_append,
          List.nil_append]
        exact List.Sublist.cons t (ih _)
      · simp only [run, run_accepted, hcb, if_neg hacc, List.nil_append]
        exact ih _

/-- Along any invocation sequence, consecutive accepted-transition times are
separated by at least the (invariant) debounce interval in the
wraparound-safe metric; the first one is at least the interval away from
the starting `last_time`. -/
lemma run_accepted_chain (d : Int) (evs : List (Nat × Bool)) :
    ∀ b : SimpleButton, b.debounce_ms = d →
      List.Chain' (fun t1 t2 => d ≤ ticks_diff t2 t1) ((run_accepted b evs).2) ∧
      ∀ t', ((run_accepted b evs).2).head? = some t' →
        d ≤ ticks_diff t' b.last_time := by
  induction evs with
  | nil =>
    intro b hb
    refine ⟨by simp [run_accepted], ?_⟩
    intro t' ht'
    simp [run_accepted] at ht'
  | cons hd rest ih =>
    intro b hb
    obtain ⟨t, lvl⟩ := hd
    by_cases hacc : (irq_handler b t lvl).1.state ≠ b.state
    · obtain ⟨hnl, hlt, hdm⟩ := irq_handler_accept_fields b t lvl hacc
      have ihm := ih (irq_handler b t lvl).1 (hdm.trans hb)
      constructor
      · simp only [run_accepted, if_pos hacc, List.cons_append, List.nil_append]
        refine List.chain'_cons'.mpr ⟨?_, ihm.1⟩
        intro y hy
        have h2 := ihm.2 y (Option.mem_def.mp hy)
        rwa [hlt] at h2
      · intro t' ht'
        simp only [run_accepted, if_pos hacc, List.cons_append, List.nil_append,
          List.head?_cons, Option.some.injEq] at ht'
        have h3 := not_lt.mp hnl
        rw [hb] at h3
        rw [← ht']
        exact h3
    · have heq : irq_handler b t lvl = (b, none) :=
        irq_handler_not_accept b t lvl (not_not.mp hacc)
      simpa [run_accepted, heq] using ih b hb

/-- C1: an interrupt-handler invocation whose wraparound-safe elapsed time
since `last_time` is below `debounce_ms` is discarded — state, timestamp and
callbacks untouched — and consequently along any invocation sequence two
consecutive accepted transitions (the successive values written to
`last_time`) are at least `debounce_ms` apart in the `ticks_diff` metric. -/
theorem c1_debounce_rejection :
    (∀ (b : SimpleButton) (now : Nat) (lvl : Bool),
        ticks_diff now b.last_time < b.debounce_ms →
        irq_handler b now lvl = (b, none)) ∧
    (∀ (b : SimpleButton) (evs : List (Nat × Bool)),
        List.Chain' (fun t1 t2 => b.debounce_ms ≤ ticks_diff t2 t1)
          ((run_accepted b evs).2)) :=
  ⟨fun b now lvl h => irq_handler_reject b now lvl h,
    fun b evs => (run_accepted_chain b.debounce_ms evs b rfl).1⟩

/-- Witness for C1 at a concrete state: elapsed 10 < 50 discards the event. -/
theorem c1_debounce_rejection_witness :
    ticks_diff 10 sampleButton.last_time < sampleButton.debounce_ms ∧
    irq_handler sampleButton 10 false = (sampleButton, none) :=
  ⟨by decide, c1_debounce_rejection.1 sampleButton 10 false (by decide)⟩

/-- C3: an invocation past the debounce window whose re-sampled candidate
state differs from the current one performs exactly the confirmed
transition: `last_time := now`, `state :=` candidate, and the single
callback matching the new state fires — `press` when the new state is
Pressed (`false`), `release` when Released (`true`) — and only when that
callback is registered (the `Option` result makes "at most once" a type
fact). -/
theorem c3_confirmed_transition (b : SimpleButton) (now : Nat)
    (physical_state : Bool)
    (h1 : ¬ ticks_diff now b.last_time < b.debounce_ms)
    (h2 : logical_of b.active_low physical_state ≠ b.state) :
    irq_handler b now physical_state =
      ({ b with last_time := now, state := logical_of b.active_low physical_state },
        if logical_of b.active_low physical_state = false then
          (if b.press_callback then some CbEvent.press else none)
        else
          (if b.release_callback then some CbEvent.release else none)) :=
  irq_handler_confirm b now physical_state h1 h2

/-- Witness for C3: at `sampleButton` (Released, debounce 50, active-low) an
edge at t = 60 with re-sampled level low is a confirmed press. -/
theorem c3_confirmed_transition_witness :
    (¬ ticks_diff 60 sampleButton.last_time < sampleButton.debounce_ms) ∧
    logical_of sampleButton.active_low false ≠ sampleButton.state ∧
    irq_handler sampleButton 60 false =
      ({ sampleButton with
          last_time := 60, state := logical_of sampleButton.active_low false },
        if logical_of sampleButton.active_low false = false then
          (if sampleButton.press_callback then some CbEvent.press else none)
        else
          (if sampleButton.release_callback then some CbEvent.release else none)) :=
  ⟨by decide, by decide,
    c3_confirmed_transition sampleButton 60 false (by decide) (by decide)⟩

/-- C4: the pin level the handler uses is the one re-sampled after the
debounce check (the embedding's `physical_state` is the single
`self._pin.value()` read at line 94, which the source performs only after
the check at line 89 has passed; the level at interrupt entry is never
read); when the candidate state derived from that re-sampled level equals
the current `state`, the invocation is discarded with no state change, no
callback and no timestamp update. -/
theorem c4_glitch_rejection (b : SimpleButton) (now : Nat)
    (physical_state : Bool)
    (h1 : ¬ ticks_diff now b.last_time < b.debounce_ms)
    (h2 : logical_of b.active_low physical_state = b.state) :
    irq_handler b now physical_state = (b, none) :=
  irq_handler_glitch b now physical_state h1 h2

/-- Witness for C4: at t = 60 a high level re-maps to Released, which is
already the state of `sampleButton`, so nothing happens. -/
theorem c4_glitch_rejection_witness :
    (¬ ticks_diff 60 sampleButton.last_time < sampleButton.debounce_ms) ∧
    logical_of sampleButton.active_low true = sampleButton.state ∧
    irq_handler sampleButton 60 true = (sampleButton, none) :=
  ⟨by decide, by decide,
    c4_glitch_rejection sampleButton 60 true (by decide) (by decide)⟩

/-- C7: `is_pressed` and `is_released` are complementary on every instance
state whatsoever — in particular on every state reachable by any sequence
of handler invocations and `deinit` calls after construction. -/
theorem c7_queries_complementary (b : SimpleButton) :
    is_pressed b = !(is_released b) := by
  cases hb : b.state <;> simp [is_pressed, is_released, hb]

/-- C8: `deinit` is idempotent and pure teardown: a second call changes
nothing, `state` and `last_time` are untouched, the queries keep answering
from the frozen state, and once disarmed, interrupt delivery invokes the
handler no more (so the state stays frozen). -/
theorem c8_deinit_idempotent (b : SimpleButton) :
    deinit (deinit b) = deinit b ∧
    (deinit b).state = b.state ∧
    (deinit b).last_time = b.last_time ∧
    is_pressed (deinit b) = is_pressed b ∧
    is_released (deinit b) = is_released b ∧
    (∀ (now : Nat) (lvl : Bool), deliver (deinit b) now lvl = (deinit b, none)) :=
  ⟨rfl, rfl, rfl, rfl, rfl, fun now lvl => by simp [deliver, deinit]⟩

/-- C9: for strictly increasing invocation times, the successive values
written to `last_time` (the accepted-transition times) are strictly
increasing — hence monotonically non-decreasing — and the callback log is a
subsequence of the accepted-transition times: callbacks fire in the order
the transitions are accepted. -/
theorem c9_accepted_ordering (b : SimpleButton) (evs : List (Nat × Bool))
    (hmono : (evs.map Prod.fst).Pairwise (fun t1 t2 => t1 < t2)) :
    ((run_accepted b evs).2).Pairwise (fun t1 t2 => t1 < t2) ∧
    ((run b evs).2.map Prod.fst).Sublist ((run_accepted b evs).2) :=
  ⟨hmono.sublist (run_accepted_sublist evs b), run_map_fst_sublist evs b⟩

/-- Witness for C9: press at t = 60, release at t = 120 on `sampleButton`. -/
theorem c9_accepted_ordering_witness :
    (([(60, false), (120, true)] : List (Nat × Bool)).map Prod.fst).Pairwise
      (fun t1 t2 => t1 < t2) ∧
    ((run_accepted sampleButton [(60, false), (120, true)]).2).Pairwise
      (fun t1 t2 => t1 < t2) ∧
    ((run sampleButton [(60, false), (120, true)]).2.map Prod.fst).Sublist
      ((run_accepted sampleButton [(60, false), (120, true)]).2) :=
  ⟨by decide,
    (c9_accepted_ordering sampleButton [(60, false), (120, true)] (by decide)).1,
    (c9_accepted_ordering sampleButton [(60, false), (120, true)] (by decide)).2⟩

/-- The pull check of line 52 matches the spec's reading of it. -/
lemma invalid_pull_iff (pull : Option Int) :
    invalid_pull pull = true ↔
      (pull ≠ none ∧ pull ≠ some PULL_UP ∧ pull ≠ some PULL_DOWN) := by
  cases pull with
  | none => simp [invalid_pull]
  | some v => simp [invalid_pull]

/-- `__init__` reports an error exactly when a validation at lines 52-57
fires. -/
lemma init_error_iff (p r : Bool) (d : Int) (pull : Option Int)
    (al raw : Bool) :
    (∃ e, init p r d pull al raw = Except.error e) ↔
      (invalid_pull pull = true ∨ d < 0) := by
  by_cases hp : invalid_pull pull = true
  · simp [init, hp]
  · by_cases hd : d < 0
    · simp [init, hp, hd]
    · simp [init, hp, hd]

/-- C6: construction fails exactly when the pull argument is neither `None`
nor one of the two recognized pull constants, or `debounce_ms` is negative
(a non-`int` `debounce_ms` is excluded by the `Int` type of the embedding,
mirroring the `isinstance` check); in particular `debounce_ms = -1` fails
and `debounce_ms = 0` succeeds.  After a successful construction no
operation can raise: `irq_handler`, `is_pressed`, `is_released` and
`deinit` are total functions into plain (non-`Except`) types. -/
theorem c6_construction_validation :
    (∀ (p r : Bool) (d : Int) (pull : Option Int) (al raw : Bool),
        (∃ e, init p r d pull al raw = Except.error e) ↔
          ((pull ≠ none ∧ pull ≠ some PULL_UP ∧ pull ≠ some PULL_DOWN) ∨
            d < 0)) ∧
    (∃ e, init true true (-1) (some PULL_UP) true true = Except.error e) ∧
    (∃ b, init true true 0 (some PULL_UP) true true = Except.ok b) := by
  refine ⟨?_, ⟨_, rfl⟩, ⟨_, rfl⟩⟩
  intro p r d pull al raw
  rw [init_error_iff, invalid_pull_iff]

/-- C5: both the constructor (lines 69-74) and the handler (lines 96-99)
map the raw level through the same polarity rule — `active_low` gives
logical = raw, otherwise logical = not raw, with `false` = Pressed and
`true` = Released — and concretely, from an initial raw low, a raw low-to-
high edge past the debounce window yields Released plus `release_callback`
under `active_low = true`, and Pressed plus `press_callback` under
`active_low = false`. -/
theorem c5_polarity :
    (∀ (p r : Bool) (d : Int) (pull : Option Int) (al raw : Bool)
        (b : SimpleButton),
        init p r d pull al raw = Except.ok b →
        b.state = (if al then raw else !raw)) ∧
    (∀ (b : SimpleButton) (now : Nat) (phys : Bool),
        ¬ ticks_diff now b.last_time < b.debounce_ms →
        (if b.active_low then phys else !phys) ≠ b.state →
        (irq_handler b now phys).1.state =
          (if b.active_low then phys else !phys)) ∧
    (∃ b0 b1 : SimpleButton,
        init true true 50 (some PULL_UP) true false = Except.ok b0 ∧
        b0.state = false ∧
        irq_handler b0 50 true = (b1, some CbEvent.release) ∧
        b1.state = true) ∧
    (∃ b0 b1 : SimpleButton,
        init true true 50 (some PULL_UP) false false = Except.ok b0 ∧
        b0.state = true ∧
        irq_handler b0 50 true = (b1, some CbEvent.press) ∧
        b1.state = false) := by
  refine ⟨?_, ?_, ⟨_, _, rfl, rfl, rfl, rfl⟩, ⟨_, _, rfl, rfl, rfl, rfl⟩⟩
  · intro p r d pull al raw b hok
    by_cases hp : invalid_pull pull = true
    · simp [init, hp] at hok
    · by_cases hd : d < 0
      · simp [init, hp, hd] at hok
      · simp [init, hp, hd] at hok
        rw [← hok]
        simp [logical_of]
  · intro b now phys h1 h2
    have h2' : logical_of b.active_low phys ≠ b.state := by
      simpa [logical_of] using h2
    rw [irq_handler_confirm b now phys h1 h2']
    simp [logical_of]

/-- Witness for C5: the constructor conjunct at the concrete instance. -/
theorem c5_polarity_witness :
    init true true 50 (some PULL_UP) true true = Except.ok sampleButton ∧
    sampleButton.state = (if true then true else !true) :=
  ⟨rfl, c5_polarity.1 true true 50 (some PULL_UP) true true sampleButton rfl⟩

/-- C10: construction initializes `last_time` to 0 (line 63) — the clock's
origin, not the construction time — so any handler invocation at a tick
count `now` with `ticks_diff now 0 < debounce_ms` is discarded with no
state change, no callback and no timestamp update, including a first
genuine transition after construction. -/
theorem c10_initial_last_time (p r : Bool) (d : Int) (pull : Option Int)
    (al raw : Bool) (b : SimpleButton)
    (hok : init p r d pull al raw = Except.ok b)
    (now : Nat) (lvl : Bool)
    (hlt : ticks_diff now 0 < b.debounce_ms) :
    b.last_time = 0 ∧ irq_handler b now lvl = (b, none) := by
  have hlast : b.last_time = 0 := by
    by_cases hp : invalid_pull pull = true
    · simp [init, hp] at hok
    · by_cases hd : d < 0
      · simp [init, hp, hd] at hok
      · simp [init, hp, hd] at hok
        rw [← hok]
  refine ⟨hlast, irq_handler_reject b now lvl ?_⟩
  rw [hlast]
  exact hlt

/-- Witness for C10: on the freshly constructed `sampleButton` a genuine
press edge at t = 10 (elapsed 10 < 50 from the origin) is discarded. -/
theorem c10_initial_last_time_witness :
    init true true 50 (some PULL_UP) true true = Except.ok sampleButton ∧
    ticks_diff 10 0 < sampleButton.debounce_ms ∧
    sampleButton.last_time = 0 ∧
    irq_handler sampleButton 10 false = (sampleButton, none) := by
  have h := c10_initial_last_time true true 50 (some PULL_UP) true true
    sampleButton rfl 10 false (by decide)
  exact ⟨rfl, by decide, h.1, h.2⟩

/-- C2, counterexample: construction with `debounce_ms = 50`, initial raw
high, `active_low = true` indeed yields the Released `sampleButton`, but
the raw edge to low at t = 0 is NOT accepted: `last_time` starts at 0, so
`ticks_diff 0 0 = 0 < 50` and the handler discards the event — it fires no
callback (result `none`, not `some press`), leaves the state Released
(`true`, not Pressed = `false`) and leaves `last_time` at 0 — contradicting
the claim that this edge is accepted with `press_callback` firing. -/
theorem c2_scenario_counterexample :
    init true true 50 (some PULL_UP) true true = Except.ok sampleButton ∧
    sampleButton.state = true ∧
    ticks_diff 0 sampleButton.last_time = 0 ∧
    irq_handler sampleButton 0 false = (sampleButton, none) ∧
    (irq_handler sampleButton 0 false).2 = none ∧
    (irq_handler sampleButton 0 false).1.state = true ∧
    (irq_handler sampleButton 0 false).1.last_time = 0 :=
  ⟨rfl, rfl, by decide, rfl, rfl, rfl, rfl⟩

/-- C2, amended: the same scenario with every edge shifted by +50 ms (the
earliest time at which the first edge clears the debounce check against the
initial `last_time = 0`): initial state Released; edge to low at t = 50
accepted (press fires, state Pressed, `last_time` 50); bounce edge to high
at t = 60 discarded (elapsed 10 < 50); edge to high at t = 110 accepted
(elapsed 60 >= 50, candidate differs: release fires, state Released,
`last_time` 110). -/
theorem c2_scenario_amended :
    init true true 50 (some PULL_UP) true true = Except.ok sampleButton ∧
    is_released sampleButton = true ∧
    (∃ b1 b2 : SimpleButton,
      irq_handler sampleButton 50 false = (b1, some CbEvent.press) ∧
      b1.state = false ∧ b1.last_time = 50 ∧
      irq_handler b1 60 true = (b1, none) ∧
      irq_handler b1 110 true = (b2, some CbEvent.release) ∧
      b2.state = true ∧ b2.last_time = 110) :=
  ⟨rfl, rfl, ⟨_, _, rfl, rfl, rfl, rfl, rfl, rfl, rfl⟩⟩
